import Mathlib

/-
Verification of the servo-stepper control core of homepods/klipper.

The repository carries several revisions of the same C file:
  * src/src/servo_stepper.c            -- modelled in namespace SSC
  * src/unnamed/part_000               -- modelled in namespace P0
  * src/unnamed/part_001 (first part)  -- modelled in namespace P1
Machine integers are modelled as Nat (uint32/uint8/uint16, reduced mod 2^w
at every operation that can wrap) and Int (int32/int16; int32 values that
arise from reinterpreting a uint32 are produced by toInt32).  C integer
division on int32 truncates toward zero, hence Int.tdiv below.
-/

-- 2^32, the modulus of uint32 arithmetic.
def U32 : Nat := 4294967296

-- Reduce to a uint32 value.
def u32 (n : Nat) : Nat := n % U32

-- uint32 subtraction a - b (wrap-around, two's complement).
def u32sub (a b : Nat) : Nat := u32 (a + (U32 - b % U32))

-- Conversion of an Int to uint32 (the C cast (uint32_t)z).
def u32ofInt (z : Int) : Nat := (z % (4294967296 : Int)).toNat

-- Reinterpret a uint32 bit pattern as an int32 (the C cast (int32_t)n).
def toInt32 (n : Nat) : Int :=
  if n % U32 < 2147483648 then ((n % U32 : Nat) : Int) else ((n % U32 : Nat) : Int) - (U32 : Int)

-- Truncate to int16 (the C cast (int16_t)n, used when a command argument is
-- stored into a 16-bit gain field).
def toInt16 (n : Nat) : Int :=
  if n % 65536 < 32768 then ((n % 65536 : Nat) : Int) else ((n % 65536 : Nat) : Int) - 65536

-- The CONSTRAIN(val,min,max) macro of servo_stepper.c.
def constrain (v lo hi : Int) : Int := if v < lo then lo else if v > hi then hi else v

-- DIV_ROUND_CLOSEST(x, d) for unsigned arguments: (x + d/2) / d.
-- Callers apply u32 to the result / argument where the C computation wraps.
def div_round_closest (x d : Nat) : Nat := (x + d / 2) / d

-- Boolean check that the second character list starts with the first.
def charsBegin : List Char → List Char → Bool
  | [], _ => true
  | _ :: _, [] => false
  | c :: cs, d :: ds => c == d && charsBegin cs ds

-- Boolean check that string m begins with string p.
def strBegins (m p : String) : Bool := charsBegin p.data m.data

-- Calls the control core makes into the A4954 driver / virtual stepper.
-- Arguments are the uint32 values passed at the call site.
inductive DriverCall where
  | set_phase : Nat → Nat → DriverCall
  | move_to_phase : Nat → Nat → DriverCall
  | hold : Nat → DriverCall
deriving Repr, DecidableEq

/-
Namespace SSC: model of src/src/servo_stepper.c.

Constants of that file: PID_INIT_HOLD 2000, PID_INIT_SAMPLES 20,
PID_SCALE_DIVISOR 1024, TIME_SCALE_SHIFT 10, FULL_STEP 256,
PHASE_BIAS 0x01000000 = 16777216, PHASE_CHANGE_MAX 51200, DEBUG defined.
Mode codes: disabled 0, open_loop 1, torque 2, hpid 3, pid_init 4.
-/

namespace SSC

structure PidControl where
  init_count : Nat
  Kp : Int
  Ki : Int
  Kd : Int
  integral : Int
  error : Int
  encoder_offset : Nat
  last_phase : Nat
  last_stp_pos : Nat
  last_sample_time : Nat
  query_flag : Nat
deriving Repr, DecidableEq

structure ServoStepper where
  pid_ctrl : PidControl
  full_steps_per_rotation : Nat
  excite_angle : Nat
  run_current_scale : Nat
  hold_current_scale : Nat
  step_multiplier : Nat
  flags : Nat
deriving Repr, DecidableEq

-- The per-sample inputs of servo_stepper_update: the raw encoder position,
-- the virtual stepper position returned by virtual_stepper_get_position,
-- and the clock value returned by timer_read_time.
structure Inputs where
  position : Nat
  vs_position : Nat
  time : Nat
deriving Repr, DecidableEq

-- servo_stepper.c lines 75-80.
def position_to_phase (ss : ServoStepper) (position : Nat) : Nat :=
  u32 (u32 (ss.full_steps_per_rotation * position) + 128) / 256

-- servo_stepper.c lines 82-89.
def servo_stepper_mode_open_loop (ss : ServoStepper) (inp : Inputs) :
    ServoStepper × List DriverCall :=
  (ss, [DriverCall.move_to_phase (u32 (inp.vs_position * ss.step_multiplier))
          ss.run_current_scale])

-- servo_stepper.c lines 91-97.
def servo_stepper_mode_torque_update (ss : ServoStepper) (inp : Inputs) :
    ServoStepper × List DriverCall :=
  (ss, [DriverCall.set_phase (u32 (position_to_phase ss (u32 inp.position) + ss.excite_angle))
          ss.run_current_scale])

-- The shutdown message of servo_stepper.c lines 133-134.
def variance_msg : String :=
  "Encoder Variance too large!  Check your calibration and magnet position."

-- The deviation of a sample from the running mean as the code computes it:
-- pos_diff = position - encoder_offset in uint32, negated when its high bit
-- is set (servo_stepper.c lines 125-130).
def init_deviation (ss : ServoStepper) (position : Nat) : Nat :=
  let d := u32sub position ss.pid_ctrl.encoder_offset
  if d < 2147483648 then d else u32sub 0 d

-- servo_stepper.c lines 119-141: one sample of the moving average of
-- encoder positions, with the variance check.
def pid_init_sample (ss : ServoStepper) (position : Nat) : Except String PidControl :=
  if ss.pid_ctrl.init_count = 0 then
    -- line 121: initial reference position for the mean
    Except.ok { ss.pid_ctrl with encoder_offset := u32 position }
  else
    -- lines 124-140: moving average with variance check
    let pos_diff0 := u32sub position ss.pid_ctrl.encoder_offset
    let is_neg := decide (2147483648 ≤ pos_diff0)
    let pos_diff1 := if is_neg then u32sub 0 pos_diff0 else pos_diff0
    if 256 < pos_diff1 then
      Except.error variance_msg
    else
      let pos_diff2 := div_round_closest pos_diff1 (ss.pid_ctrl.init_count + 1)
      Except.ok { ss.pid_ctrl with encoder_offset :=
        (if is_neg then u32sub ss.pid_ctrl.encoder_offset pos_diff2
         else u32 (ss.pid_ctrl.encoder_offset + pos_diff2)) }

-- servo_stepper.c lines 99-155 (mode SS_MODE_PID_INIT).
def servo_stepper_mode_pid_init (ss : ServoStepper) (inp : Inputs) :
    Except String (ServoStepper × List DriverCall) :=
  if ss.pid_ctrl.last_phase ≠ 0 then
    -- hold-current pre-roll countdown, lines 102-114
    let calls := if ss.pid_ctrl.last_phase = 1990 then [DriverCall.hold ss.hold_current_scale]
      else []
    Except.ok ({ ss with pid_ctrl :=
      { ss.pid_ctrl with last_phase := ss.pid_ctrl.last_phase - 1 } }, calls)
  else
    match pid_init_sample ss inp.position with
    | Except.error e => Except.error e
    | Except.ok pc1 =>
      -- line 143 (uint8 increment) and lines 145-154
      let pc2 := { pc1 with init_count := (pc1.init_count + 1) % 256 }
      if 20 ≤ pc2.init_count then
        Except.ok ({ ss with
          flags := 3,
          pid_ctrl := { pc2 with
            last_phase := 0,
            last_sample_time := u32 inp.time,
            error := 0 } }, [])
      else
        Except.ok ({ ss with pid_ctrl := pc2 }, [])

-- servo_stepper.c lines 169-172: sample-time delta, scaled, clamped to ≥ 1.
def hpid_time_diff (ss : ServoStepper) (t : Nat) : Nat :=
  let td := (u32sub t ss.pid_ctrl.last_sample_time) >>> 10
  if td = 0 then 1 else td

-- servo_stepper.c line 173: position -= encoder_offset.
def hpid_position (ss : ServoStepper) (position : Nat) : Nat :=
  u32sub position ss.pid_ctrl.encoder_offset

-- servo_stepper.c line 174.
def hpid_phase (ss : ServoStepper) (position : Nat) : Nat :=
  position_to_phase ss (hpid_position ss position)

-- servo_stepper.c lines 176-181: signed phase delta with overflow bias.
def hpid_phase_diff (ss : ServoStepper) (position : Nat) : Int :=
  let pd := toInt32 (u32sub (hpid_phase ss position) ss.pid_ctrl.last_phase)
  let bias : Int := if pd > 51200 then -16777216 else if pd < -51200 then 16777216 else 0
  pd + bias

-- servo_stepper.c line 183.
def hpid_stp_pos (inp : Inputs) : Nat := u32 inp.vs_position

-- servo_stepper.c lines 184-185: (stp_pos - last_stp_pos) * step_multiplier
-- computed in uint32, reinterpreted as int32.
def hpid_move_diff (ss : ServoStepper) (inp : Inputs) : Int :=
  toInt32 (u32 (u32sub (hpid_stp_pos inp) ss.pid_ctrl.last_stp_pos * ss.step_multiplier))

-- servo_stepper.c line 186: the stored running error after accumulation.
def hpid_error2 (ss : ServoStepper) (inp : Inputs) : Int :=
  ss.pid_ctrl.error + (hpid_move_diff ss inp - hpid_phase_diff ss inp.position)

-- servo_stepper.c lines 189-191: integral of the (unclamped) error, then
-- clamped to ±FULL_STEP.  The cast (int32_t)time_diff is the identity here
-- because time_diff ≤ (2^32-1) >> 10 < 2^31.
def hpid_integral2 (ss : ServoStepper) (inp : Inputs) : Int :=
  constrain (ss.pid_ctrl.integral + hpid_error2 ss inp * (hpid_time_diff ss inp.time : Int))
    (-256) 256

-- servo_stepper.c lines 194-197: the control output before clamping.
def hpid_co_raw (ss : ServoStepper) (inp : Inputs) : Int :=
  Int.tdiv (ss.pid_ctrl.Kp * hpid_error2 ss inp
    + ss.pid_ctrl.Ki * hpid_integral2 ss inp
    - Int.tdiv (ss.pid_ctrl.Kd * hpid_phase_diff ss inp.position)
        (hpid_time_diff ss inp.time : Int)) 1024

-- servo_stepper.c line 198.
def hpid_co (ss : ServoStepper) (inp : Inputs) : Int :=
  constrain (hpid_co_raw ss inp) (-256) 256

-- servo_stepper.c lines 199-200.
def hpid_cur_scale (ss : ServoStepper) (inp : Inputs) : Nat :=
  u32 (u32 ((hpid_co ss inp).natAbs *
        u32sub ss.run_current_scale ss.hold_current_scale) / 256
      + ss.hold_current_scale)

-- servo_stepper.c line 201: the phase passed to a4954_move_to_phase.
def hpid_next_phase (ss : ServoStepper) (inp : Inputs) : Nat :=
  u32ofInt ((hpid_phase ss inp.position : Int) + hpid_co ss inp)

-- servo_stepper.c lines 157-214 (mode SS_MODE_HPID).  The DEBUG block
-- lines 203-209 clears query_flag whenever it was set; its net effect on the
-- field is always 0.
def servo_stepper_mode_hpid_update (ss : ServoStepper) (inp : Inputs) :
    ServoStepper × List DriverCall :=
  ({ ss with pid_ctrl := { ss.pid_ctrl with
      error := hpid_error2 ss inp,
      integral := hpid_integral2 ss inp,
      query_flag := 0,
      last_phase := hpid_phase ss inp.position,
      last_stp_pos := hpid_stp_pos inp,
      last_sample_time := u32 inp.time } },
   [DriverCall.move_to_phase (hpid_next_phase ss inp) (hpid_cur_scale ss inp)])

-- servo_stepper.c lines 216-226: the mode dispatch.  A shutdown inside
-- pid_init is modelled as Except.error carrying the shutdown message.
def servo_stepper_update (ss : ServoStepper) (inp : Inputs) :
    Except String (ServoStepper × List DriverCall) :=
  match ss.flags with
  | 1 => Except.ok (servo_stepper_mode_open_loop ss inp)
  | 2 => Except.ok (servo_stepper_mode_torque_update ss inp)
  | 3 => Except.ok (servo_stepper_mode_hpid_update ss inp)
  | 4 => servo_stepper_mode_pid_init ss inp
  | _ => Except.ok (ss, [])

-- A sequence of ISR ticks: servo_stepper_update applied to each input in
-- turn, stopping at the first shutdown.
def runSeq (ss : ServoStepper) : List Inputs → Except String ServoStepper
  | [] => Except.ok ss
  | inp :: rest =>
    match servo_stepper_update ss inp with
    | Except.error e => Except.error e
    | Except.ok (ss2, _) => runSeq ss2 rest

end SSC

/-
Namespace P1: model of the first revision contained in src/unnamed/part_001
(lines 1-302 of that file).  Constants: PID_SCALE_DIVISOR 1024,
TIME_SCALE_SHIFT 10, FULL_STEP 256, PHASE_BIAS 0x01000000, PHASE_MAX 51200;
DEBUG is commented out, so pid_control has no query_flag field.
Mode codes: disabled 0, open_loop 1, torque 2, hpid 3, pid_init 4.
-/

namespace P1

structure PidControl where
  Kp : Int
  Ki : Int
  Kd : Int
  integral : Int
  error : Int
  phase_offset : Nat
  last_phase : Nat
  last_stp_pos : Nat
  last_sample_time : Nat
  max_loop_time : Nat
deriving Repr, DecidableEq

structure ServoStepper where
  pid_ctrl : PidControl
  full_steps_per_rotation : Nat
  excite_angle : Nat
  run_current_scale : Nat
  hold_current_scale : Nat
  step_multiplier : Nat
  flags : Nat
deriving Repr, DecidableEq

-- part_001 lines 70-75.
def position_to_phase (ss : ServoStepper) (position : Nat) : Nat :=
  u32 (u32 (ss.full_steps_per_rotation * position) + 128) / 256

-- part_001 lines 109-112.
def hpid_time_diff (ss : ServoStepper) (t : Nat) : Nat :=
  let td := (u32sub t ss.pid_ctrl.last_sample_time) >>> 10
  if td = 0 then 1 else td

-- part_001 lines 113-114: measured phase relative to the stored offset.
def hpid_phase (ss : ServoStepper) (position : Nat) : Nat :=
  u32sub (position_to_phase ss (u32 position)) ss.pid_ctrl.phase_offset

-- part_001 lines 115-120: signed phase delta with overflow bias.
def hpid_phase_diff (ss : ServoStepper) (position : Nat) : Int :=
  let pd := toInt32 (u32sub (hpid_phase ss position) ss.pid_ctrl.last_phase)
  let bias : Int := if pd > 51200 then -16777216 else if pd < -51200 then 16777216 else 0
  pd + bias

-- part_001 lines 122-123: the virtual stepper position already multiplied
-- by step_multiplier (uint32 arithmetic).
def hpid_stp_pos (ss : ServoStepper) (vs_position : Nat) : Nat :=
  u32 (vs_position * ss.step_multiplier)

-- part_001 line 124.
def hpid_move_diff (ss : ServoStepper) (vs_position : Nat) : Int :=
  toInt32 (u32sub (hpid_stp_pos ss vs_position) ss.pid_ctrl.last_stp_pos)

-- part_001 line 125: the stored running error after accumulation.
def hpid_error2 (ss : ServoStepper) (position vs_position : Nat) : Int :=
  ss.pid_ctrl.error + (hpid_move_diff ss vs_position - hpid_phase_diff ss position)

-- part_001 line 128: the local variable error = CONSTRAIN(ss->pid_ctrl.error,
-- -FULL_STEP, FULL_STEP), taken after the accumulation above.
def hpid_cerr (ss : ServoStepper) (position vs_position : Nat) : Int :=
  constrain (hpid_error2 ss position vs_position) (-256) 256

-- part_001 lines 131-133: integral of the clamped error, then clamped.
def hpid_integral2 (ss : ServoStepper) (position vs_position t : Nat) : Int :=
  constrain (ss.pid_ctrl.integral
      + hpid_cerr ss position vs_position * (hpid_time_diff ss t : Int))
    (-256) 256

-- part_001 lines 136-139: the control output before clamping.
def hpid_co_raw (ss : ServoStepper) (position vs_position t : Nat) : Int :=
  Int.tdiv (ss.pid_ctrl.Kp * hpid_cerr ss position vs_position
    + ss.pid_ctrl.Ki * hpid_integral2 ss position vs_position t
    - Int.tdiv (ss.pid_ctrl.Kd * hpid_phase_diff ss position)
        (hpid_time_diff ss t : Int)) 1024

-- part_001 line 140.
def hpid_co (ss : ServoStepper) (position vs_position t : Nat) : Int :=
  constrain (hpid_co_raw ss position vs_position t) (-256) 256

-- part_001 lines 141-142.
def hpid_cur_scale (ss : ServoStepper) (position vs_position t : Nat) : Nat :=
  u32 (u32 ((hpid_co ss position vs_position t).natAbs *
        u32sub ss.run_current_scale ss.hold_current_scale) / 256
      + ss.hold_current_scale)

-- part_001 lines 144-147: the phase handed to a4954_set_phase.  When the
-- accumulated error exceeds half a step the commanded phase is the measured
-- phase plus the CLAMPED running error; otherwise it is stp_pos.
def hpid_next_phase (ss : ServoStepper) (position vs_position : Nat) : Nat :=
  if 128 < (hpid_error2 ss position vs_position).natAbs then
    u32ofInt ((hpid_phase ss position : Int) + hpid_cerr ss position vs_position)
  else
    hpid_stp_pos ss vs_position

-- part_001 lines 102-162 (mode SS_MODE_HPID).
def servo_stepper_mode_hpid_update (ss : ServoStepper) (position vs_position t : Nat) :
    ServoStepper × DriverCall :=
  ({ ss with pid_ctrl := { ss.pid_ctrl with
      error := hpid_error2 ss position vs_position,
      integral := hpid_integral2 ss position vs_position t,
      last_phase := hpid_phase ss position,
      last_stp_pos := hpid_stp_pos ss vs_position,
      last_sample_time := u32 t } },
   DriverCall.set_phase (hpid_next_phase ss position vs_position)
     (hpid_cur_scale ss position vs_position t))

end P1

/-
Namespace P0: model of src/unnamed/part_000.  Constants: PID_SCALE_SHIFT 10,
TIME_SCALE_SHIFT 17, PID_ALLOWABLE_ERROR 16.  Mode codes: disabled 0,
open_loop 1, torque 2, hpid 3 (this revision has no pid_init mode).
-/

namespace P0

structure PidControl where
  Kp : Int
  Ki : Int
  Kd : Int
  integral : Int
  last_phase : Nat
  last_position : Nat
  last_sample_time : Nat
deriving Repr, DecidableEq

structure ServoStepper where
  pid_ctrl : PidControl
  full_steps_per_rotation : Nat
  excite_angle : Nat
  run_current_scale : Nat
  hold_current_scale : Nat
  flags : Nat
deriving Repr, DecidableEq

-- The command argument vector of command_servo_stepper_set_mode:
-- args[2] = run_current_scale, args[3] = flex, args[4..6] = kp, ki, kd.
structure Args where
  a2 : Nat
  a3 : Nat
  a4 : Nat
  a5 : Nat
  a6 : Nat
deriving Repr, DecidableEq

-- part_000 lines 56-60.
def position_to_phase (ss : ServoStepper) (position : Nat) : Nat :=
  u32 (u32 (ss.full_steps_per_rotation * position) + 128) / 256

-- The shutdown message of part_000 line 180.
def transition_msg : String := "PID Mode must transition from open-loop"

-- part_000 lines 176-194: servo_stepper_set_hpid_mode.  The guard is the
-- bitwise test if (!(ss->flags & SS_MODE_OPEN_LOOP)) with
-- SS_MODE_OPEN_LOOP = 1.  On success the virtual stepper is repositioned
-- (external call, not part of the returned state) and the mode flag is set
-- to SS_MODE_HPID = 3.  t models the timer_read_time() result.
def servo_stepper_set_hpid_mode (ss : ServoStepper) (args : Args) (t : Nat) :
    Except String ServoStepper :=
  if ss.flags &&& 1 = 0 then
    Except.error transition_msg
  else
    let position := position_to_phase ss (u32 args.a3)
    Except.ok { ss with
      pid_ctrl := { ss.pid_ctrl with
        Kp := toInt16 args.a4,
        Ki := toInt16 args.a5,
        Kd := toInt16 args.a6,
        last_position := position,
        last_phase := position,
        last_sample_time := u32 t,
        integral := 0 },
      flags := 3 }

end P0

/-
Mutation-order traces for the mode-entering commands of
src/src/servo_stepper.c (claim C9).  Each trace lists, in program order, the
stores to instance fields and the driver / virtual-stepper mutating calls a
command performs, bracketed by the irq_disable / irq_enable pair.  Reads
(virtual_stepper_get_position) are not mutations and are not listed.
-/

inductive Ev where
  | irq_off : Ev
  | irq_on : Ev
  | config_store : String → Ev
  | driver_call : String → Ev
  | vs_call : String → Ev
  | pid_store : String → Ev
  | mode_store : Nat → Ev
deriving Repr, DecidableEq

-- servo_stepper.c lines 250-257.
def set_disabled_trace : List Ev :=
  [Ev.irq_off,
   Ev.mode_store 0,
   Ev.driver_call "a4954_disable",
   Ev.irq_on]

-- servo_stepper.c lines 259-269.
def set_open_loop_trace : List Ev :=
  [Ev.irq_off,
   Ev.driver_call "a4954_reset",
   Ev.vs_call "virtual_stepper_set_position",
   Ev.mode_store 1,
   Ev.config_store "run_current_scale",
   Ev.config_store "hold_current_scale",
   Ev.irq_on]

-- servo_stepper.c lines 291-300.
def set_torque_trace : List Ev :=
  [Ev.irq_off,
   Ev.driver_call "a4954_enable",
   Ev.mode_store 2,
   Ev.config_store "run_current_scale",
   Ev.config_store "excite_angle",
   Ev.irq_on]

-- servo_stepper.c lines 271-289.
def set_hpid_trace : List Ev :=
  [Ev.irq_off,
   Ev.config_store "run_current_scale",
   Ev.config_store "hold_current_scale",
   Ev.driver_call "a4954_reset",
   Ev.pid_store "Kp",
   Ev.pid_store "Ki",
   Ev.pid_store "Kd",
   Ev.pid_store "init_count",
   Ev.pid_store "last_phase",
   Ev.pid_store "last_stp_pos",
   Ev.pid_store "error",
   Ev.pid_store "integral",
   Ev.mode_store 4,
   Ev.irq_on]

-- Category rank demanded by the claim: configuration stores, then driver /
-- virtual-stepper mutations, then PID-state stores, then the mode store.
def evRank : Ev → Nat
  | Ev.config_store _ => 0
  | Ev.driver_call _ => 1
  | Ev.vs_call _ => 1
  | Ev.pid_store _ => 2
  | Ev.mode_store _ => 3
  | Ev.irq_off => 0
  | Ev.irq_on => 3

def isModeStore : Ev → Bool
  | Ev.mode_store _ => true
  | _ => false

def ranksMono : List Nat → Bool
  | [] => true
  | [_] => true
  | a :: b :: r => Nat.ble a b && ranksMono (b :: r)

-- The events between irq_disable and irq_enable.
def innerTrace (t : List Ev) : List Ev := (t.drop 1).dropLast

-- The order demanded by the claim: inside the critical section the events
-- are ordered config ≤ driver ≤ pid ≤ mode, with exactly one mode store,
-- placed last.
def claimOrderB (t : List Ev) : Bool :=
  let m := innerTrace t
  ranksMono (m.map evRank)
    && (match m.getLast? with
        | some e => isModeStore e
        | none => false)
    && (m.filter isModeStore).length == 1

/-
Shared helper lemmas.
-/

theorem constrain_mem (v lo hi : Int) (h : lo ≤ hi) :
    lo ≤ constrain v lo hi ∧ constrain v lo hi ≤ hi := by
  simp only [constrain]
  split_ifs <;> omega

theorem u32sub_of_le (a b : Nat) (hb : b ≤ a) (ha : a < 4294967296) :
    u32sub a b = a - b := by
  simp only [u32sub, u32, U32]
  omega

/-
Claim theorems.
-/

/-- C8: for every p in [0, 2^24 / full_steps_per_rotation) with
full_steps_per_rotation > 0, position_to_phase p equals the round-to-nearest
of full_steps_per_rotation * p / 256 (i.e. 256 * result is within 128 of the
product), is monotonically non-decreasing in p on that range, and
consecutive values differ by at most ceil(full_steps_per_rotation / 256). -/
theorem C8_position_to_phase_round_mono (ss : SSC.ServoStepper) (p : Nat)
    (hf : 0 < ss.full_steps_per_rotation)
    (hp : p < 16777216 / ss.full_steps_per_rotation) :
    (256 * SSC.position_to_phase ss p ≤ ss.full_steps_per_rotation * p + 128
      ∧ ss.full_steps_per_rotation * p ≤ 256 * SSC.position_to_phase ss p + 128)
    ∧ (∀ q, q ≤ p → SSC.position_to_phase ss q ≤ SSC.position_to_phase ss p)
    ∧ SSC.position_to_phase ss p ≤ SSC.position_to_phase ss (p + 1)
    ∧ SSC.position_to_phase ss (p + 1) - SSC.position_to_phase ss p
        ≤ (ss.full_steps_per_rotation + 255) / 256 := by
  have hbound : ss.full_steps_per_rotation * (p + 1) ≤ 16777216 := by
    calc ss.full_steps_per_rotation * (p + 1)
        ≤ ss.full_steps_per_rotation * (16777216 / ss.full_steps_per_rotation) :=
          Nat.mul_le_mul_left _ hp
      _ = (16777216 / ss.full_steps_per_rotation) * ss.full_steps_per_rotation :=
          Nat.mul_comm _ _
      _ ≤ 16777216 := Nat.div_mul_le_self _ _
  have hptp : ∀ q, ss.full_steps_per_rotation * q ≤ 16777216 →
      SSC.position_to_phase ss q = (ss.full_steps_per_rotation * q + 128) / 256 := by
    intro q hq
    simp only [SSC.position_to_phase, u32, U32]
    rw [Nat.mod_eq_of_lt (by omega), Nat.mod_eq_of_lt (by omega)]
  have hple : ss.full_steps_per_rotation * p ≤ 16777216 :=
    le_trans (Nat.mul_le_mul_left _ (Nat.le_succ p)) hbound
  have e1 : SSC.position_to_phase ss p = (ss.full_steps_per_rotation * p + 128) / 256 :=
    hptp p hple
  have e2 : SSC.position_to_phase ss (p + 1)
      = (ss.full_steps_per_rotation * p + ss.full_steps_per_rotation + 128) / 256 := by
    rw [hptp (p + 1) hbound, Nat.mul_succ]
  refine ⟨?_, ?_, ?_, ?_⟩
  · rw [e1]
    generalize ss.full_steps_per_rotation * p = n
    constructor <;> omega
  · intro q hq
    have hmul : ss.full_steps_per_rotation * q ≤ ss.full_steps_per_rotation * p :=
      Nat.mul_le_mul_left _ hq
    rw [hptp q (le_trans hmul hple), e1]
    exact Nat.div_le_div_right (by omega)
  · rw [e1, e2]
    generalize ss.full_steps_per_rotation * p = n
    exact Nat.div_le_div_right (by omega)
  · rw [e1, e2]
    generalize ss.full_steps_per_rotation * p = n
    generalize hd : ss.full_steps_per_rotation = d
    omega

-- Concrete instance for the C8 witness: a 200-full-step motor.
def c8w : SSC.ServoStepper :=
  { pid_ctrl :=
      { init_count := 0, Kp := 0, Ki := 0, Kd := 0, integral := 0, error := 0,
        encoder_offset := 0, last_phase := 0, last_stp_pos := 0, last_sample_time := 0,
        query_flag := 0 },
    full_steps_per_rotation := 200, excite_angle := 0, run_current_scale := 0,
    hold_current_scale := 0, step_multiplier := 0, flags := 3 }

/-- C8 witness: the bounds instantiated at full_steps_per_rotation = 200,
p = 3 (position_to_phase gives 2, ceil(200/256) = 1). -/
theorem C8_witness :
    (0 < c8w.full_steps_per_rotation ∧ 3 < 16777216 / c8w.full_steps_per_rotation)
    ∧ ((256 * SSC.position_to_phase c8w 3 ≤ c8w.full_steps_per_rotation * 3 + 128
        ∧ c8w.full_steps_per_rotation * 3 ≤ 256 * SSC.position_to_phase c8w 3 + 128)
      ∧ (∀ q, q ≤ 3 → SSC.position_to_phase c8w q ≤ SSC.position_to_phase c8w 3)
      ∧ SSC.position_to_phase c8w 3 ≤ SSC.position_to_phase c8w 4
      ∧ SSC.position_to_phase c8w 4 - SSC.position_to_phase c8w 3
          ≤ (c8w.full_steps_per_rotation + 255) / 256) :=
  ⟨⟨by decide, by decide⟩, C8_position_to_phase_round_mono c8w 3 (by decide) (by decide)⟩

/-- C5: in the hybrid_pid update of servo_stepper.c, whenever
run_current_scale >= hold_current_scale (both in 0..255), the current scale
passed to the driver lies in [hold_current_scale, run_current_scale], and
the clamped control output entering the current-scaling formula satisfies
abs co <= FULL_STEP = 256; the emitted driver call carries exactly that
current scale. -/
theorem C5_current_scale_range (ss : SSC.ServoStepper) (inp : SSC.Inputs)
    (hrun : ss.run_current_scale ≤ 255) (hhold : ss.hold_current_scale ≤ 255)
    (hle : ss.hold_current_scale ≤ ss.run_current_scale) :
    (ss.hold_current_scale ≤ SSC.hpid_cur_scale ss inp
      ∧ SSC.hpid_cur_scale ss inp ≤ ss.run_current_scale)
    ∧ (SSC.hpid_co ss inp).natAbs ≤ 256
    ∧ (SSC.servo_stepper_mode_hpid_update ss inp).2
        = [DriverCall.move_to_phase (SSC.hpid_next_phase ss inp) (SSC.hpid_cur_scale ss inp)] := by
  have hco : (SSC.hpid_co ss inp).natAbs ≤ 256 := by
    have h := constrain_mem (SSC.hpid_co_raw ss inp) (-256) 256 (by omega)
    simp only [SSC.hpid_co]
    omega
  refine ⟨?_, hco, rfl⟩
  have hsub : u32sub ss.run_current_scale ss.hold_current_scale
      = ss.run_current_scale - ss.hold_current_scale :=
    u32sub_of_le _ _ hle (by omega)
  have hprod : (SSC.hpid_co ss inp).natAbs *
      (ss.run_current_scale - ss.hold_current_scale)
      ≤ 256 * (ss.run_current_scale - ss.hold_current_scale) :=
    Nat.mul_le_mul_right _ hco
  simp only [SSC.hpid_cur_scale, hsub, u32, U32]
  generalize (SSC.hpid_co ss inp).natAbs *
      (ss.run_current_scale - ss.hold_current_scale) = m at hprod
  constructor <;> omega

-- Concrete instance for the C5 witness.
def c5w : SSC.ServoStepper :=
  { pid_ctrl :=
      { init_count := 0, Kp := 0, Ki := 0, Kd := 0, integral := 0, error := 0,
        encoder_offset := 0, last_phase := 0, last_stp_pos := 0, last_sample_time := 0,
        query_flag := 0 },
    full_steps_per_rotation := 200, excite_angle := 0, run_current_scale := 10,
    hold_current_scale := 5, step_multiplier := 1, flags := 3 }

def c5inp : SSC.Inputs := { position := 0, vs_position := 0, time := 0 }

/-- C5 witness: the range bounds instantiated at run = 10, hold = 5. -/
theorem C5_witness :
    (c5w.hold_current_scale ≤ SSC.hpid_cur_scale c5w c5inp
      ∧ SSC.hpid_cur_scale c5w c5inp ≤ c5w.run_current_scale)
    ∧ (SSC.hpid_co c5w c5inp).natAbs ≤ 256
    ∧ (SSC.servo_stepper_mode_hpid_update c5w c5inp).2
        = [DriverCall.move_to_phase (SSC.hpid_next_phase c5w c5inp) (SSC.hpid_cur_scale c5w c5inp)] :=
  C5_current_scale_range c5w c5inp (by decide) (by decide) (by decide)

-- Definition following the spec's words (section 4.3 steps 7-8): the control
-- output formula co = (Kp * clamped_err + Ki * integral - Kd * d_phase / dt)
-- / PID_SCALE_DIVISOR, with C truncating division, for comparison with the
-- code's hpid_co_raw.
def spec_control_output (Kp Ki Kd clamped_err integral d_phase dt : Int) : Int :=
  Int.tdiv (Kp * clamped_err + Ki * integral - Int.tdiv (Kd * d_phase) dt) 1024

/-- C3: in the hybrid_pid update of part_001, the control output passed to
clamping equals (Kp * clamped_err + Ki * integral - Kd * d_phase / dt) /
1024, where clamped_err is the running error clamped to plus-or-minus FULL_STEP,
d_phase the wrap-corrected phase difference, and dt >= 1; the result is then
clamped to plus-or-minus FULL_STEP. -/
theorem C3_control_output_formula (ss : P1.ServoStepper) (position vs_position t : Nat) :
    P1.hpid_co_raw ss position vs_position t
      = spec_control_output ss.pid_ctrl.Kp ss.pid_ctrl.Ki ss.pid_ctrl.Kd
          (constrain (P1.hpid_error2 ss position vs_position) (-256) 256)
          (P1.hpid_integral2 ss position vs_position t)
          (P1.hpid_phase_diff ss position)
          (P1.hpid_time_diff ss t)
    ∧ 1 ≤ P1.hpid_time_diff ss t
    ∧ P1.hpid_co ss position vs_position t
        = constrain (P1.hpid_co_raw ss position vs_position t) (-256) 256 := by
  refine ⟨rfl, ?_, rfl⟩
  simp only [P1.hpid_time_diff]
  split <;> omega

/-- C4: in the hybrid_pid update of part_001, the stored running error is
accumulated without clamping, and the integral accumulates the clamped
error: the new integral equals
clamp(old_integral + clamp(new_error, -256, 256) * dt, -256, 256). -/
theorem C4_error_unclamped_integral_clamped (ss : P1.ServoStepper)
    (position vs_position t : Nat) :
    ((P1.servo_stepper_mode_hpid_update ss position vs_position t).1.pid_ctrl.error
        = ss.pid_ctrl.error
          + (P1.hpid_move_diff ss vs_position - P1.hpid_phase_diff ss position))
    ∧ ((P1.servo_stepper_mode_hpid_update ss position vs_position t).1.pid_ctrl.integral
        = constrain (ss.pid_ctrl.integral
            + constrain ((P1.servo_stepper_mode_hpid_update ss position vs_position t).1.pid_ctrl.error)
                (-256) 256
              * (P1.hpid_time_diff ss t : Int))
            (-256) 256) :=
  ⟨rfl, rfl⟩

-- Concrete state for the C1 counterexample: all gains zero (so co = 0) and
-- an accumulated error of 200 (> 128, <= 256 so it survives clamping).
def c1st : P1.ServoStepper :=
  { pid_ctrl :=
      { Kp := 0, Ki := 0, Kd := 0, integral := 0, error := 200,
        phase_offset := 0, last_phase := 0, last_stp_pos := 0, last_sample_time := 0,
        max_loop_time := 0 },
    full_steps_per_rotation := 200, excite_angle := 0, run_current_scale := 0,
    hold_current_scale := 0, step_multiplier := 1, flags := 3 }

/-- C1 counterexample: at a state with accumulated error 200 (> 128) and all
gains zero, part_001 commands phase + clamped_error = 0 + 200 = 200, while
phase + co = 0 + 0 = 0: the commanded phase is not phase + co. -/
theorem C1_counterexample :
    128 < (P1.hpid_error2 c1st 0 0).natAbs
    ∧ (P1.servo_stepper_mode_hpid_update c1st 0 0 0).2 = DriverCall.set_phase 200 0
    ∧ u32ofInt ((P1.hpid_phase c1st 0 : Int) + P1.hpid_co c1st 0 0 0) = 0
    ∧ (200 : Nat) ≠ 0 := by decide

/-- C1 amended: in the hybrid_pid update of part_001, the phase commanded to
the driver is phase + clamped_err (the running error clamped to plus-or-minus FULL_STEP,
added to the measured phase) whenever |error| > 128, and is the commanded
virtual-stepper position stp (already multiplied by step_multiplier)
whenever |error| <= 128. -/
theorem C1_next_phase_selection (ss : P1.ServoStepper) (position vs_position t : Nat) :
    (P1.servo_stepper_mode_hpid_update ss position vs_position t).2
      = DriverCall.set_phase
          (if 128 < (P1.hpid_error2 ss position vs_position).natAbs then
            u32ofInt ((P1.hpid_phase ss position : Int)
              + constrain (P1.hpid_error2 ss position vs_position) (-256) 256)
          else P1.hpid_stp_pos ss vs_position)
          (P1.hpid_cur_scale ss position vs_position t) :=
  rfl

-- Helper lemma: a pid_init averaging sample leaves integral, init_count and
-- error unchanged (only encoder_offset moves).
theorem pid_init_sample_frame (ss : SSC.ServoStepper) (position : Nat)
    (pc1 : SSC.PidControl)
    (h : SSC.pid_init_sample ss position = Except.ok pc1) :
    pc1.integral = ss.pid_ctrl.integral
    ∧ pc1.init_count = ss.pid_ctrl.init_count
    ∧ pc1.error = ss.pid_ctrl.error := by
  unfold SSC.pid_init_sample at h
  by_cases h0 : ss.pid_ctrl.init_count = 0
  · rw [if_pos h0] at h
    cases h
    exact ⟨rfl, rfl, rfl⟩
  · rw [if_neg h0] at h
    dsimp only at h
    by_cases h2 : 256 < (if decide (2147483648 ≤ u32sub position ss.pid_ctrl.encoder_offset) = true
        then u32sub 0 (u32sub position ss.pid_ctrl.encoder_offset)
        else u32sub position ss.pid_ctrl.encoder_offset)
    · rw [if_pos h2] at h
      exact Except.noConfusion h
    · rw [if_neg h2] at h
      cases h
      exact ⟨rfl, rfl, rfl⟩

-- Helper for C2: a pid_init step never touches the integral field.
theorem pid_init_integral_eq (ss : SSC.ServoStepper) (inp : SSC.Inputs)
    (ss2 : SSC.ServoStepper) (cs : List DriverCall)
    (h : SSC.servo_stepper_mode_pid_init ss inp = Except.ok (ss2, cs)) :
    ss2.pid_ctrl.integral = ss.pid_ctrl.integral := by
  unfold SSC.servo_stepper_mode_pid_init at h
  split at h
  · simp only [Except.ok.injEq, Prod.mk.injEq] at h
    obtain ⟨h1, -⟩ := h
    subst h1
    rfl
  · cases heq : SSC.pid_init_sample ss inp.position with
    | error e =>
      rw [heq] at h
      exact absurd h (by simp)
    | ok pc1 =>
      rw [heq] at h
      dsimp only at h
      have hpc := (pid_init_sample_frame ss inp.position pc1 heq).1
      split at h
      · simp only [Except.ok.injEq, Prod.mk.injEq] at h
        obtain ⟨h1, -⟩ := h
        subst h1
        simpa using hpc
      · simp only [Except.ok.injEq, Prod.mk.injEq] at h
        obtain ⟨h1, -⟩ := h
        subst h1
        simpa using hpc

-- Helper for C2: after any successful update the integral is either
-- unchanged or already within the clamp bound.
theorem update_integral_step (ss : SSC.ServoStepper) (inp : SSC.Inputs)
    (ss2 : SSC.ServoStepper) (cs : List DriverCall)
    (h : SSC.servo_stepper_update ss inp = Except.ok (ss2, cs)) :
    ss2.pid_ctrl.integral = ss.pid_ctrl.integral
    ∨ ss2.pid_ctrl.integral.natAbs ≤ 256 := by
  unfold SSC.servo_stepper_update at h
  split at h
  · simp only [SSC.servo_stepper_mode_open_loop, Except.ok.injEq, Prod.mk.injEq] at h
    obtain ⟨h1, -⟩ := h
    subst h1
    exact Or.inl rfl
  · simp only [SSC.servo_stepper_mode_torque_update, Except.ok.injEq, Prod.mk.injEq] at h
    obtain ⟨h1, -⟩ := h
    subst h1
    exact Or.inl rfl
  · simp only [SSC.servo_stepper_mode_hpid_update, Except.ok.injEq, Prod.mk.injEq] at h
    obtain ⟨h1, -⟩ := h
    subst h1
    refine Or.inr ?_
    have hb := constrain_mem (ss.pid_ctrl.integral
      + SSC.hpid_error2 ss inp * (SSC.hpid_time_diff ss inp.time : Int)) (-256) 256 (by omega)
    simp only [SSC.hpid_integral2]
    omega
  · exact Or.inl (pid_init_integral_eq ss inp ss2 cs h)
  · simp only [Except.ok.injEq, Prod.mk.injEq] at h
    obtain ⟨h1, -⟩ := h
    subst h1
    exact Or.inl rfl

-- Helper for C2: the integral bound is preserved along any run.
theorem runSeq_integral_bound (l : List SSC.Inputs) :
    ∀ ss ss2, ss.pid_ctrl.integral.natAbs ≤ 256 →
      SSC.runSeq ss l = Except.ok ss2 → ss2.pid_ctrl.integral.natAbs ≤ 256 := by
  induction l with
  | nil =>
    intro ss ss2 hb h
    simp only [SSC.runSeq, Except.ok.injEq] at h
    subst h
    exact hb
  | cons inp rest ih =>
    intro ss ss2 hb h
    unfold SSC.runSeq at h
    cases heq : SSC.servo_stepper_update ss inp with
    | error e =>
      rw [heq] at h
      exact absurd h (by simp)
    | ok p =>
      obtain ⟨s1, cs⟩ := p
      rw [heq] at h
      dsimp only at h
      rcases update_integral_step ss inp s1 cs heq with h1 | h1
      · exact ih s1 ss2 (by omega) h
      · exact ih s1 ss2 h1 h

/-- C2: in servo_stepper.c, after every servo_stepper_update call on an
instance in hybrid_pid mode the integral satisfies |integral| <= 256, for
any prior state and any inputs; consequently, starting from a mode-entry
state with integral = 0, the bound holds after any sequence of update
calls. -/
theorem C2_integral_bound :
    (∀ (ss : SSC.ServoStepper) (inp : SSC.Inputs) (ss2 : SSC.ServoStepper)
        (cs : List DriverCall), ss.flags = 3 →
      SSC.servo_stepper_update ss inp = Except.ok (ss2, cs) →
      ss2.pid_ctrl.integral.natAbs ≤ 256)
    ∧ (∀ (ss : SSC.ServoStepper) (l : List SSC.Inputs) (ss2 : SSC.ServoStepper),
        ss.pid_ctrl.integral = 0 →
      SSC.runSeq ss l = Except.ok ss2 → ss2.pid_ctrl.integral.natAbs ≤ 256) := by
  constructor
  · intro ss inp ss2 cs hf h
    simp only [SSC.servo_stepper_update, hf] at h
    simp only [SSC.servo_stepper_mode_hpid_update, Except.ok.injEq, Prod.mk.injEq] at h
    obtain ⟨h1, -⟩ := h
    subst h1
    have hb := constrain_mem (ss.pid_ctrl.integral
      + SSC.hpid_error2 ss inp * (SSC.hpid_time_diff ss inp.time : Int)) (-256) 256 (by omega)
    simp only [SSC.hpid_integral2]
    omega
  · intro ss l ss2 h0 h
    exact runSeq_integral_bound l ss ss2 (by omega) h

-- Concrete state for the C2 witness: a hybrid_pid instance.
def c2w : SSC.ServoStepper :=
  { pid_ctrl :=
      { init_count := 0, Kp := 3, Ki := 2, Kd := 1, integral := 0, error := 5,
        encoder_offset := 0, last_phase := 0, last_stp_pos := 0, last_sample_time := 0,
        query_flag := 0 },
    full_steps_per_rotation := 200, excite_angle := 0, run_current_scale := 10,
    hold_current_scale := 5, step_multiplier := 1, flags := 3 }

/-- C2 witness: the single-step bound at a concrete hybrid_pid state, and
the sequence bound over a concrete two-step run starting from integral 0. -/
theorem C2_witness :
    ((SSC.servo_stepper_mode_hpid_update c2w c5inp).1.pid_ctrl.integral.natAbs ≤ 256)
    ∧ (∀ ss2, SSC.runSeq c2w [c5inp, c5inp] = Except.ok ss2 →
        ss2.pid_ctrl.integral.natAbs ≤ 256) :=
  ⟨C2_integral_bound.1 c2w c5inp _ _ rfl (by rfl),
   fun ss2 h => C2_integral_bound.2 c2w [c5inp, c5inp] ss2 rfl h⟩

/-- C10: in servo_stepper.c, servo_stepper_update in modes disabled (0),
open_loop (1) and torque (2) leaves the entire PID state block unchanged,
and in disabled mode performs no driver call at all. -/
theorem C10_frame_other_modes (ss : SSC.ServoStepper) (inp : SSC.Inputs)
    (h : ss.flags = 0 ∨ ss.flags = 1 ∨ ss.flags = 2) :
    ∃ cs, SSC.servo_stepper_update ss inp = Except.ok (ss, cs)
      ∧ (ss.flags = 0 → cs = []) := by
  rcases h with h | h | h
  · refine ⟨[], ?_, fun _ => rfl⟩
    simp only [SSC.servo_stepper_update, h]
  · refine ⟨[DriverCall.move_to_phase (u32 (inp.vs_position * ss.step_multiplier))
      ss.run_current_scale], ?_, fun h0 => by omega⟩
    simp only [SSC.servo_stepper_update, h, SSC.servo_stepper_mode_open_loop]
  · refine ⟨[DriverCall.set_phase
      (u32 (SSC.position_to_phase ss (u32 inp.position) + ss.excite_angle))
      ss.run_current_scale], ?_, fun h0 => by omega⟩
    simp only [SSC.servo_stepper_update, h, SSC.servo_stepper_mode_torque_update]

-- Concrete state for the C10 witness: a disabled instance.
def c10w : SSC.ServoStepper :=
  { pid_ctrl :=
      { init_count := 7, Kp := 3, Ki := 2, Kd := 1, integral := 9, error := 5,
        encoder_offset := 11, last_phase := 13, last_stp_pos := 17, last_sample_time := 19,
        query_flag := 0 },
    full_steps_per_rotation := 200, excite_angle := 0, run_current_scale := 10,
    hold_current_scale := 5, step_multiplier := 1, flags := 0 }

/-- C10 witness: the frame property instantiated at a concrete disabled
instance. -/
theorem C10_witness :
    ∃ cs, SSC.servo_stepper_update c10w c5inp = Except.ok (c10w, cs)
      ∧ (c10w.flags = 0 → cs = []) :=
  C10_frame_other_modes c10w c5inp (Or.inl rfl)

/-- C9 counterexample: the set_open_loop command of servo_stepper.c resets
the driver and the virtual stepper first, then writes the mode flag, and
only afterwards stores run_current_scale and hold_current_scale, so its
trace violates the claimed order (config, driver, pid, mode-last). -/
theorem C9_counterexample : claimOrderB set_open_loop_trace = false := by decide

/-- C9 amended: only servo_stepper_set_hpid_mode performs its mutations in
the order configuration fields, driver reset, PID-state reset, mode flag
last; servo_stepper_set_disabled writes the mode flag first and then
disables the driver, and servo_stepper_set_open_loop_mode /
servo_stepper_set_torque_mode touch the driver (and virtual stepper) first,
then write the mode flag, then the configuration fields — all inside the
interrupt-disabled section. -/
theorem C9_mutation_orders :
    claimOrderB set_hpid_trace = true
    ∧ claimOrderB set_disabled_trace = false
    ∧ claimOrderB set_torque_trace = false
    ∧ (innerTrace set_disabled_trace).map evRank = [3, 1]
    ∧ (innerTrace set_open_loop_trace).map evRank = [1, 1, 3, 0, 0]
    ∧ (innerTrace set_torque_trace).map evRank = [1, 3, 0, 0]
    ∧ set_disabled_trace.head? = some Ev.irq_off
    ∧ set_disabled_trace.getLast? = some Ev.irq_on
    ∧ set_open_loop_trace.head? = some Ev.irq_off
    ∧ set_open_loop_trace.getLast? = some Ev.irq_on
    ∧ set_torque_trace.head? = some Ev.irq_off
    ∧ set_torque_trace.getLast? = some Ev.irq_on
    ∧ set_hpid_trace.head? = some Ev.irq_off
    ∧ set_hpid_trace.getLast? = some Ev.irq_on := by decide

-- Concrete states for the C6 counterexample and witness.
def c6pc : P0.PidControl :=
  { Kp := 0, Ki := 0, Kd := 0, integral := 7, last_phase := 0, last_position := 0,
    last_sample_time := 0 }

def c6st3 : P0.ServoStepper :=
  { pid_ctrl := c6pc, full_steps_per_rotation := 200, excite_angle := 0,
    run_current_scale := 0, hold_current_scale := 0, flags := 3 }

def c6st2 : P0.ServoStepper :=
  { pid_ctrl := c6pc, full_steps_per_rotation := 200, excite_angle := 0,
    run_current_scale := 0, hold_current_scale := 0, flags := 2 }

def c6st1 : P0.ServoStepper :=
  { pid_ctrl := c6pc, full_steps_per_rotation := 200, excite_angle := 0,
    run_current_scale := 0, hold_current_scale := 0, flags := 1 }

def c6args : P0.Args := { a2 := 9, a3 := 0, a4 := 1, a5 := 2, a6 := 3 }

/-- C6 counterexample: in part_000 the guard is the bitwise test
flags AND 1 = 0, so calling set_hpid while the mode is hybrid_pid (3) —
which is neither open_loop (1) nor disabled (0) — does NOT shut down but
succeeds, contradicting the claim that every mode other than open_loop and
disabled raises the fatal shutdown. -/
theorem C6_counterexample :
    c6st3.flags = 3
    ∧ (P0.servo_stepper_set_hpid_mode c6st3 c6args 0).isOk = true := by decide

/-- C6 amended: the set_mode command with the closed-loop mode code (via
servo_stepper_set_hpid_mode of part_000) raises a fatal shutdown with
message "PID Mode must transition from open-loop" exactly when the current
mode's open-loop bit is clear — i.e. from disabled (0) and torque (2), but
not from hybrid_pid (3) — and when invoked with current mode open_loop it
succeeds and leaves the mode equal to SS_MODE_HPID = 3 (part_000 has no
separate pid_init mode). -/
theorem C6_hpid_transition (ss : P0.ServoStepper) (args : P0.Args) (t : Nat) :
    (ss.flags &&& 1 = 0 →
      P0.servo_stepper_set_hpid_mode ss args t = Except.error P0.transition_msg)
    ∧ (ss.flags = 1 →
      P0.servo_stepper_set_hpid_mode ss args t
        = Except.ok { ss with
            pid_ctrl := { ss.pid_ctrl with
              Kp := toInt16 args.a4,
              Ki := toInt16 args.a5,
              Kd := toInt16 args.a6,
              last_position := P0.position_to_phase ss (u32 args.a3),
              last_phase := P0.position_to_phase ss (u32 args.a3),
              last_sample_time := u32 t,
              integral := 0 },
            flags := 3 })
    ∧ P0.transition_msg = "PID Mode must transition from open-loop" := by
  refine ⟨?_, ?_, rfl⟩
  · intro h
    simp only [P0.servo_stepper_set_hpid_mode, h, if_pos]
  · intro h
    simp only [P0.servo_stepper_set_hpid_mode, h]
    rfl

/-- C6 witness: the shutdown branch applied at mode torque (2) and the
success branch applied at mode open_loop (1). -/
theorem C6_witness :
    P0.servo_stepper_set_hpid_mode c6st2 c6args 0 = Except.error P0.transition_msg
    ∧ P0.servo_stepper_set_hpid_mode c6st1 c6args 0
        = Except.ok { c6st1 with
            pid_ctrl := { c6st1.pid_ctrl with
              Kp := toInt16 c6args.a4,
              Ki := toInt16 c6args.a5,
              Kd := toInt16 c6args.a6,
              last_position := P0.position_to_phase c6st1 (u32 c6args.a3),
              last_phase := P0.position_to_phase c6st1 (u32 c6args.a3),
              last_sample_time := u32 0,
              integral := 0 },
            flags := 3 } :=
  ⟨(C6_hpid_transition c6st2 c6args 0).1 (by decide),
   (C6_hpid_transition c6st1 c6args 0).2.1 (by decide)⟩

-- Helper: the normalized pos_diff computed by the pid_init sampling code is
-- exactly init_deviation.
theorem pos_diff_eq_init_deviation (ss : SSC.ServoStepper) (position : Nat) :
    (if decide (2147483648 ≤ u32sub position ss.pid_ctrl.encoder_offset) = true
      then u32sub 0 (u32sub position ss.pid_ctrl.encoder_offset)
      else u32sub position ss.pid_ctrl.encoder_offset)
    = SSC.init_deviation ss position := by
  simp only [SSC.init_deviation, decide_eq_true_eq]
  by_cases hlt : u32sub position ss.pid_ctrl.encoder_offset < 2147483648
  · rw [if_neg (by omega), if_pos hlt]
  · rw [if_pos (by omega), if_neg hlt]

-- Helper: a sample whose deviation from the running mean exceeds a full
-- step shuts down with the variance message.
theorem pid_init_sample_variance (ss : SSC.ServoStepper) (position : Nat)
    (hc : ss.pid_ctrl.init_count ≠ 0)
    (hdev : 256 < SSC.init_deviation ss position) :
    SSC.pid_init_sample ss position = Except.error SSC.variance_msg := by
  unfold SSC.pid_init_sample
  rw [if_neg hc]
  dsimp only
  rw [pos_diff_eq_init_deviation, if_pos hdev]

-- Helper: a sample whose deviation is within a full step succeeds.
theorem pid_init_sample_ok_of_dev_le (ss : SSC.ServoStepper) (position : Nat)
    (hdev : SSC.init_deviation ss position ≤ 256) :
    ∃ pc1, SSC.pid_init_sample ss position = Except.ok pc1 := by
  unfold SSC.pid_init_sample
  by_cases hc : ss.pid_ctrl.init_count = 0
  · rw [if_pos hc]
    exact ⟨_, rfl⟩
  · rw [if_neg hc]
    dsimp only
    rw [pos_diff_eq_init_deviation, if_neg (by omega)]
    exact ⟨_, rfl⟩

/-- C7 amended: during pid_init in servo_stepper.c (sampling phase,
i.e. hold countdown finished), if a sample after the first deviates from the
running mean by more than one full step (256), the update raises a fatal
shutdown whose message begins "Encoder Variance too large" (capitalized as
in the code); otherwise, once the configured 20 samples are reached, the
mode transitions to hybrid_pid (3) with the running error cleared and
last_sample_time set to the current clock reading. -/
theorem C7_pid_init_variance_and_completion (ss : SSC.ServoStepper) (inp : SSC.Inputs)
    (hmode : ss.flags = 4) (hphase : ss.pid_ctrl.last_phase = 0) :
    (ss.pid_ctrl.init_count ≠ 0 → 256 < SSC.init_deviation ss inp.position →
      SSC.servo_stepper_update ss inp = Except.error SSC.variance_msg
      ∧ strBegins SSC.variance_msg ("Encoder Variance too large") = true)
    ∧ (19 ≤ ss.pid_ctrl.init_count → ss.pid_ctrl.init_count ≤ 254 →
        SSC.init_deviation ss inp.position ≤ 256 →
      ∃ ss2, SSC.servo_stepper_update ss inp = Except.ok (ss2, [])
        ∧ ss2.flags = 3 ∧ ss2.pid_ctrl.error = 0
        ∧ ss2.pid_ctrl.last_sample_time = u32 inp.time) := by
  constructor
  · intro hc hdev
    refine ⟨?_, by decide⟩
    simp only [SSC.servo_stepper_update, hmode]
    unfold SSC.servo_stepper_mode_pid_init
    rw [if_neg (by simp [hphase])]
    rw [pid_init_sample_variance ss inp.position hc hdev]
  · intro h19 h254 hdev
    obtain ⟨pc1, hs⟩ := pid_init_sample_ok_of_dev_le ss inp.position hdev
    obtain ⟨-, hcnt, -⟩ := pid_init_sample_frame ss inp.position pc1 hs
    refine ⟨{ ss with
      flags := 3,
      pid_ctrl := { pc1 with
        init_count := (pc1.init_count + 1) % 256,
        last_phase := 0,
        last_sample_time := u32 inp.time,
        error := 0 } }, ?_, rfl, rfl, rfl⟩
    simp only [SSC.servo_stepper_update, hmode]
    unfold SSC.servo_stepper_mode_pid_init
    rw [if_neg (by simp [hphase])]
    rw [hs]
    dsimp only
    rw [if_pos (by omega)]

-- Concrete pid_init states for the C7 counterexample and witness: sampling
-- phase (hold countdown finished), second sample.
def c7a : SSC.ServoStepper :=
  { pid_ctrl :=
      { init_count := 1, Kp := 0, Ki := 0, Kd := 0, integral := 0, error := 0,
        encoder_offset := 0, last_phase := 0, last_stp_pos := 0, last_sample_time := 0,
        query_flag := 0 },
    full_steps_per_rotation := 200, excite_angle := 0, run_current_scale := 10,
    hold_current_scale := 5, step_multiplier := 1, flags := 4 }

def c7inpA : SSC.Inputs := { position := 1000, vs_position := 0, time := 0 }

def c7b : SSC.ServoStepper :=
  { pid_ctrl :=
      { init_count := 19, Kp := 0, Ki := 0, Kd := 0, integral := 0, error := 6,
        encoder_offset := 500, last_phase := 0, last_stp_pos := 0, last_sample_time := 0,
        query_flag := 0 },
    full_steps_per_rotation := 200, excite_angle := 0, run_current_scale := 10,
    hold_current_scale := 5, step_multiplier := 1, flags := 4 }

def c7inpB : SSC.Inputs := { position := 500, vs_position := 0, time := 77 }

/-- C7 counterexample: a pid_init sample deviating by 1000 (> 256) from the
running mean does raise the variance shutdown, but the shutdown message is
"Encoder Variance too large!  ..." (capital V), so it does not begin with
the claimed prefix "Encoder variance too large". -/
theorem C7_counterexample :
    SSC.servo_stepper_update c7a c7inpA = Except.error SSC.variance_msg
    ∧ strBegins SSC.variance_msg ("Encoder variance too large") = false :=
  ⟨by rfl, by decide⟩

/-- C7 witness: the shutdown branch at a concrete deviating sample, and the
completion branch at a concrete 20th in-tolerance sample. -/
theorem C7_witness :
    (SSC.servo_stepper_update c7a c7inpA = Except.error SSC.variance_msg
      ∧ strBegins SSC.variance_msg ("Encoder Variance too large") = true)
    ∧ (∃ ss2, SSC.servo_stepper_update c7b c7inpB = Except.ok (ss2, [])
        ∧ ss2.flags = 3 ∧ ss2.pid_ctrl.error = 0
        ∧ ss2.pid_ctrl.last_sample_time = u32 c7inpB.time) :=
  ⟨(C7_pid_init_variance_and_completion c7a c7inpA rfl rfl).1 (by decide) (by decide),
   (C7_pid_init_variance_and_completion c7b c7inpB rfl rfl).2 (by decide) (by decide) (by decide)⟩
